import Mathlib

/-!
Shallow embedding of the `pigpio` safe-wrapper crate (src/lib.rs and
src/error.rs) and proofs of the specification claims about it.

The crate wraps the native `pigpio` C library (exposed through the external
`pigpio_sys` crate).  The native layer is modelled as an oracle: each wrapper
operation takes the native return code it would observe as an explicit
argument, and returns, next to its result, the list of native entry points it
invoked (so that claims about which native calls happen can be stated).
Machine integers are modelled as `Int`/`Nat` with explicit wrapping where the
source casts (`as u32`).
-/

namespace Pigpio

/-! ### Native sentinel constants

Modelled from the spec: these integer constants come from the external
`pigpio_sys` crate (the native library's public contract), which is not part
of this repository's sources.  The spec fixes them only symbolically
("fixed integer constants defined by the native library's public contract").
The values below are the native library's documented error codes; the claims
proved in this file depend only on the constants being pairwise distinct
within each translation function (and negative, while waveform identifiers
are non-negative), which holds for the native library's actual values. -/

/-- Sentinel returned by the native initialization entry point on failure. -/
def PI_INIT_FAILED : Int := -1

/-- Sentinel: bad user GPIO pin number. -/
def PI_BAD_USER_GPIO : Int := -2

/-- Sentinel: bad GPIO pin number. -/
def PI_BAD_GPIO : Int := -3

/-- Sentinel: bad pin mode. -/
def PI_BAD_MODE : Int := -4

/-- Sentinel: bad wave transmission mode. -/
def PI_BAD_WAVE_MODE : Int := -33

/-- Sentinel: bad wave baud rate. -/
def PI_BAD_WAVE_BAUD : Int := -35

/-- Sentinel: too many pulses in the staged waveform. -/
def PI_TOO_MANY_PULSES : Int := -36

/-- Sentinel: too many characters in serial data. -/
def PI_TOO_MANY_CHARS : Int := -37

/-- Sentinel: bad serial offset. -/
def PI_BAD_SER_OFFSET : Int := -49

/-- Sentinel: bad waveform identifier. -/
def PI_BAD_WAVE_ID : Int := -66

/-- Sentinel: too many control blocks. -/
def PI_TOO_MANY_CBS : Int := -67

/-- Sentinel: too many OOL blocks. -/
def PI_TOO_MANY_OOL : Int := -68

/-- Sentinel: attempt to compile an empty waveform. -/
def PI_EMPTY_WAVEFORM : Int := -69

/-- Sentinel: no waveform identifier available. -/
def PI_NO_WAVEFORM_ID : Int := -70

/-- Sentinel: bad number of data bits for serial data. -/
def PI_BAD_DATABITS : Int := -92

/-- Sentinel: bad number of stop bits for serial data. -/
def PI_BAD_STOPBITS : Int := -93

/-- Native wave transmission mode: one shot, not synchronized. -/
def PI_WAVE_MODE_ONE_SHOT : Int := 0

/-- Native wave transmission mode: repeat, not synchronized. -/
def PI_WAVE_MODE_REPEAT : Int := 1

/-- Native wave transmission mode: one shot, synchronized. -/
def PI_WAVE_MODE_ONE_SHOT_SYNC : Int := 2

/-- Native wave transmission mode: repeat, synchronized. -/
def PI_WAVE_MODE_REPEAT_SYNC : Int := 3

/-- Largest value of a 32-bit unsigned integer, the bound the source checks
lengths against (`u32::max_value()`). -/
def U32_MAX : Nat := 2 ^ 32 - 1

/-- Wrapping conversion of a signed value to `u32`, modelling the source's
`as u32` cast (src/lib.rs line 110). -/
def toU32 (i : Int) : Nat := (i % (2 ^ 32 : Int)).toNat

/-- Record of one invocation of a native (`pigpio_sys`) entry point, with the
arguments the wrapper passes.  Claims about which native calls an operation
makes are stated over lists of these. -/
inductive NativeCall where
  | gpioInitialise
  | gpioSetMode (pin : Nat) (mode : Nat)
  | gpioWaveClear
  | gpioWaveAddGeneric (numPulses : Nat)
  | gpioWaveAddSerial (pin baud dataBits stopBits offset numBytes : Nat)
  | gpioWaveCreate
  | gpioWaveTxSend (id : Nat) (mode : Int)
  | gpioWaveDelete (id : Nat)
  | gpioWaveTxBusy
  deriving DecidableEq, Repr

/-! ### Error taxonomy (src/error.rs) -/

namespace error

/-- Initialization errors (src/error.rs lines 1-5). -/
inductive Init where
  | PiGpioFailed
  | AlreadyInitialized
  deriving DecidableEq, Repr

/-- Error of `wave_add_generic` (src/error.rs lines 7-8): a unit struct. -/
structure TooManyPulses where
  deriving DecidableEq, Repr

/-- Errors of `wave_add_serial` (src/error.rs lines 10-19). -/
inductive BadSerial where
  | InvalidPin
  | InvalidBaud
  | InvalidDataBits
  | InvalidStopBits
  | TooManyBytes
  | InvalidOffset
  | TooManyPulses
  deriving DecidableEq, Repr

/-- Translation of the native return code of `gpioWaveAddSerial`
(src/error.rs lines 21-36); the ordered `match` arms become nested tests. -/
def BadSerial.from_return_code (code : Int) : Except BadSerial Unit :=
  if code = PI_BAD_USER_GPIO then .error .InvalidPin
  else if code = PI_BAD_WAVE_BAUD then .error .InvalidBaud
  else if code = PI_BAD_DATABITS then .error .InvalidDataBits
  else if code = PI_BAD_STOPBITS then .error .InvalidStopBits
  else if code = PI_TOO_MANY_CHARS then .error .TooManyBytes
  else if code = PI_BAD_SER_OFFSET then .error .InvalidOffset
  else if code = PI_TOO_MANY_PULSES then .error .TooManyPulses
  else .ok ()

/-- Errors of `wave_create` (src/error.rs lines 44-50). -/
inductive WaveCreate where
  | EmptyWaveform
  | TooManyCbs
  | TooManyOol
  | NoWaveformId
  deriving DecidableEq, Repr

/-- Translation of the native return code of `gpioWaveCreate`
(src/error.rs lines 52-64); a non-sentinel code is returned as the new
waveform identifier. -/
def WaveCreate.from_return_code (code : Int) : Except WaveCreate Int :=
  if code = PI_EMPTY_WAVEFORM then .error .EmptyWaveform
  else if code = PI_TOO_MANY_CBS then .error .TooManyCbs
  else if code = PI_TOO_MANY_OOL then .error .TooManyOol
  else if code = PI_NO_WAVEFORM_ID then .error .NoWaveformId
  else .ok code

/-- Errors of `tx_send` (src/error.rs lines 66-70). -/
inductive WaveSend where
  | InvalidId
  | InvalidMode
  deriving DecidableEq, Repr

/-- Translation of the native return code of `gpioWaveTxSend`
(src/error.rs lines 72-80). -/
def WaveSend.from_return_code (code : Int) : Except WaveSend Unit :=
  if code = PI_BAD_WAVE_ID then .error .InvalidId
  else if code = PI_BAD_WAVE_MODE then .error .InvalidMode
  else .ok ()

/-- Errors of `set_mode` (src/error.rs lines 82-86). -/
inductive SetMode where
  | InvalidPin
  | InvalidMode
  deriving DecidableEq, Repr

end error

/-! ### Data model (src/lib.rs) -/

/-- The controller handle (src/lib.rs lines 19-21): its only field is a
zero-sized `PhantomData`, so it is modelled as an empty structure.  The
source declares no `Drop` implementation for it. -/
structure PiGpio where
  deriving DecidableEq, Repr

/-- One pulse (the `gpioPulse_t` record of the native library, re-exported as
`type Pulse` in src/lib.rs line 171): set mask, clear mask, duration.  The
wrapper never interprets the fields; they are 32-bit in the native layout. -/
structure Pulse where
  gpioOn : Nat
  gpioOff : Nat
  usDelay : Nat
  deriving DecidableEq, Repr

/-- Pin modes (src/lib.rs lines 119-129). -/
inductive PinMode where
  | Input
  | Output
  | Alt0
  | Alt1
  | Alt2
  | Alt3
  | Alt4
  | Alt5
  deriving DecidableEq, Repr, Fintype

/-- The explicit discriminants of `PinMode` (the source's `mode as u32`):
Input=0, Output=1, Alt0=4, Alt1=5, Alt2=6, Alt3=7, Alt4=3, Alt5=2. -/
def PinMode.code : PinMode → Nat
  | .Input => 0
  | .Output => 1
  | .Alt0 => 4
  | .Alt1 => 5
  | .Alt2 => 6
  | .Alt3 => 7
  | .Alt4 => 3
  | .Alt5 => 2

/-- A compiled waveform handle (src/lib.rs lines 132-136): holds the native
identifier as `u32` (the back-reference to `PiGpio` is zero-sized). -/
structure Wave where
  id : Nat
  deriving DecidableEq, Repr

/-- Wave transmission modes (src/lib.rs lines 156-160). -/
inductive WaveMode where
  | OneShot
  | Repeat
  deriving DecidableEq, Repr

/-- Mapping of a `WaveMode` to the native synchronized mode code
(src/lib.rs lines 162-169). -/
def WaveMode.sync : WaveMode → Int
  | .OneShot => PI_WAVE_MODE_ONE_SHOT_SYNC
  | .Repeat => PI_WAVE_MODE_REPEAT_SYNC

/-- The process-wide state: the static `REF_COUNT` atomic inside
`PiGpio::init` (src/lib.rs line 36).  It is the only mutable global in the
crate; 0 models Uninitialized, any other value Initialized. -/
structure ProcState where
  REF_COUNT : Nat
  deriving DecidableEq, Repr

/-! ### Operations (src/lib.rs) -/

/-- Embedding of `PiGpio::init` (src/lib.rs lines 32-49).  `nativeRet` is the
value the native `gpioInitialise` call would return; the function yields the
result, the new process-wide state, and the native calls made.  The source's
`compare_and_swap(0, 1)` succeeds exactly when `REF_COUNT` is 0, setting it
to 1; on native failure it is stored back to 0. -/
def PiGpio.init (nativeRet : Int) (s : ProcState) :
    Except error.Init PiGpio × ProcState × List NativeCall :=
  if s.REF_COUNT = 0 then
    if nativeRet ≠ PI_INIT_FAILED then
      (.ok ⟨⟩, ⟨1⟩, [NativeCall.gpioInitialise])
    else
      (.error .PiGpioFailed, ⟨0⟩, [NativeCall.gpioInitialise])
  else
    (.error .AlreadyInitialized, s, [])

/-- Embedding of `PiGpio::set_mode` (src/lib.rs lines 52-58). -/
def PiGpio.set_mode (pin : Nat) (mode : PinMode) (nativeRet : Int) :
    Except error.SetMode Unit × List NativeCall :=
  ((if nativeRet = PI_BAD_GPIO then .error .InvalidPin
    else if nativeRet = PI_BAD_MODE then .error .InvalidMode
    else .ok ()),
   [NativeCall.gpioSetMode pin mode.code])

/-- Embedding of `PiGpio::wave_clear` (src/lib.rs lines 61-65). -/
def PiGpio.wave_clear : Unit × List NativeCall :=
  ((), [NativeCall.gpioWaveClear])

/-- Embedding of `PiGpio::wave_add_generic` (src/lib.rs lines 68-80): if the
pulse count exceeds `u32::max_value()` it fails locally without a native
call; otherwise the native call is made and its return code compared against
the too-many-pulses sentinel. -/
def PiGpio.wave_add_generic (pulses : List Pulse) (nativeRet : Int) :
    Except error.TooManyPulses Unit × List NativeCall :=
  if pulses.length > U32_MAX then
    (.error ⟨⟩, [])
  else if nativeRet ≠ PI_TOO_MANY_PULSES then
    (.ok (), [NativeCall.gpioWaveAddGeneric pulses.length])
  else
    (.error ⟨⟩, [NativeCall.gpioWaveAddGeneric pulses.length])

/-- Embedding of `PiGpio::wave_add_serial` (src/lib.rs lines 86-104): if the
byte count exceeds `u32::max_value()` it fails locally without a native call;
otherwise the native return code is translated by
`error.BadSerial.from_return_code`. -/
def PiGpio.wave_add_serial (pin baud data_bits stop_bits offset : Nat)
    (data : List Nat) (nativeRet : Int) :
    Except error.BadSerial Unit × List NativeCall :=
  if data.length > U32_MAX then
    (.error .TooManyBytes, [])
  else
    (error.BadSerial.from_return_code nativeRet,
     [NativeCall.gpioWaveAddSerial pin baud data_bits stop_bits offset
        data.length])

/-- Embedding of `PiGpio::wave_create` (src/lib.rs lines 107-111): the native
return code is translated by `error.WaveCreate.from_return_code`; on success
the identifier is cast `as u32` and stored in a new `Wave`. -/
def PiGpio.wave_create (nativeRet : Int) :
    Except error.WaveCreate Wave × List NativeCall :=
  ((match error.WaveCreate.from_return_code nativeRet with
    | .ok id => .ok ⟨toU32 id⟩
    | .error e => .error e),
   [NativeCall.gpioWaveCreate])

/-- Embedding of `PiGpio::wave_tx_busy` (src/lib.rs lines 114-116). -/
def PiGpio.wave_tx_busy (nativeRet : Int) : Bool × List NativeCall :=
  (nativeRet ≠ 0, [NativeCall.gpioWaveTxBusy])

/-- Embedding of `Wave::tx_send` (src/lib.rs lines 142-145): forwards the
stored identifier and the synchronized mode code, then translates the return
code by `error.WaveSend.from_return_code`. -/
def Wave.tx_send (w : Wave) (mode : WaveMode) (nativeRet : Int) :
    Except error.WaveSend Unit × List NativeCall :=
  (error.WaveSend.from_return_code nativeRet,
   [NativeCall.gpioWaveTxSend w.id mode.sync])

/-- Embedding of the `Drop` implementation for `Wave`
(src/lib.rs lines 148-154): disposal calls `gpioWaveDelete` with the stored
identifier. -/
def Wave.drop (w : Wave) : List NativeCall :=
  [NativeCall.gpioWaveDelete w.id]

/-- Disposal of a `PiGpio` handle.  The source declares no `Drop`
implementation for `PiGpio` (src/lib.rs lines 19-24), and dropping a struct
whose only field is `PhantomData` runs no code in Rust, so disposal makes no
native call and leaves the process-wide state unchanged. -/
def PiGpio.drop (s : ProcState) : ProcState × List NativeCall :=
  (s, [])

/-- Full native-call trace of one `wave_create` invocation together with the
eventual disposal of the handle it produced, if any: on success the handle's
`Drop` runs at end of scope; on failure no handle exists and no disposal
happens. -/
def waveLifecycle (nativeRet : Int) : List NativeCall :=
  (PiGpio.wave_create nativeRet).2 ++
    (match (PiGpio.wave_create nativeRet).1 with
     | .ok w => w.drop
     | .error _ => [])

/-- One call through the crate's public API, with the native return code the
call would observe, for stating properties over whole program runs. -/
inductive ApiOp where
  | init (nativeRet : Int)
  | dropPiGpio
  | set_mode (pin : Nat) (mode : PinMode) (nativeRet : Int)
  | wave_clear
  | wave_add_generic (pulses : List Pulse) (nativeRet : Int)
  | wave_add_serial (pin baud data_bits stop_bits offset : Nat)
      (data : List Nat) (nativeRet : Int)
  | wave_create (nativeRet : Int)
  | wave_tx_busy (nativeRet : Int)
  | tx_send (w : Wave) (mode : WaveMode) (nativeRet : Int)
  | dropWave (w : Wave)
  deriving DecidableEq, Repr

/-- Effect of one public API call on the process-wide state.  In the source,
`REF_COUNT` is a local static of `PiGpio::init` (src/lib.rs line 36): no
other function of the crate can read or write it, and neither `PiGpio` drops
(no `Drop` impl) nor `Wave` drops (its `Drop` only calls `gpioWaveDelete`)
touch it. -/
def procStep (op : ApiOp) (s : ProcState) : ProcState :=
  match op with
  | .init r => (PiGpio.init r s).2.1
  | .dropPiGpio => (PiGpio.drop s).1
  | _ => s

/-- Process-wide state after a sequence of public API calls. -/
def runOps : List ApiOp → ProcState → ProcState
  | [], s => s
  | op :: ops, s => runOps ops (procStep op s)

/-! ### Helper lemmas -/

/-- A successful `init` leaves the process-wide counter at 1. -/
theorem init_ok_state (r : Int) (s : ProcState) (g : PiGpio)
    (h : (PiGpio.init r s).1 = Except.ok g) : (PiGpio.init r s).2.1 = ⟨1⟩ := by
  unfold PiGpio.init at h ⊢
  by_cases h0 : s.REF_COUNT = 0
  · by_cases hr : r ≠ PI_INIT_FAILED
    · simp [h0, hr]
    · simp [h0, hr] at h
  · simp [h0] at h

/-- Once the process-wide counter is nonzero, no public API call changes the
state: only `init` touches `REF_COUNT`, and at a nonzero counter its
compare-and-swap fails without writing. -/
theorem procStep_of_ne_zero (op : ApiOp) (s : ProcState)
    (h : s.REF_COUNT ≠ 0) : procStep op s = s := by
  cases op <;> simp [procStep, PiGpio.init, PiGpio.drop, h]

/-- Once the process-wide counter is nonzero, whole call sequences leave the
state unchanged. -/
theorem runOps_of_ne_zero (ops : List ApiOp) (s : ProcState)
    (h : s.REF_COUNT ≠ 0) : runOps ops s = s := by
  induction ops generalizing s with
  | nil => rfl
  | cons op ops ih =>
      rw [runOps, procStep_of_ne_zero op s h]
      exact ih s h

/-! ### Claim theorems -/

/-- C1: if the process-wide state is already Initialized, `PiGpio::init`
fails with `AlreadyInitialized` and makes no native call; otherwise it
transitions the state to Initialized and invokes the native initializer:
if that call reports failure (`PI_INIT_FAILED`) the state is rolled back to
Uninitialized and the result is `PiGpioFailed`, and if it succeeds a
controller handle is returned. -/
theorem init_spec (r : Int) (s : ProcState) :
    (s.REF_COUNT ≠ 0 →
      PiGpio.init r s = (.error .AlreadyInitialized, s, [])) ∧
    (s.REF_COUNT = 0 → r = PI_INIT_FAILED →
      PiGpio.init r s =
        (.error .PiGpioFailed, ⟨0⟩, [NativeCall.gpioInitialise])) ∧
    (s.REF_COUNT = 0 → r ≠ PI_INIT_FAILED →
      PiGpio.init r s = (.ok ⟨⟩, ⟨1⟩, [NativeCall.gpioInitialise])) := by
  refine ⟨fun h0 => ?_, fun h0 hr => ?_, fun h0 hr => ?_⟩ <;>
    simp [PiGpio.init, h0]
  · simp [hr]
  · simp [hr]

/-- Witness for C1 at concrete inputs. -/
theorem init_spec_witness :
    PiGpio.init 0 ⟨1⟩ = (.error .AlreadyInitialized, ⟨1⟩, []) :=
  (init_spec 0 ⟨1⟩).1 (by decide)

/-- C2: once one `init` call has succeeded, every later `init` call in the
same process fails with `AlreadyInitialized`, whatever sequence of public
API calls (including dropping the controller handle) happened in between and
whatever the native initializer would return. -/
theorem init_after_success (r : Int) (s : ProcState) (g : PiGpio)
    (h : (PiGpio.init r s).1 = Except.ok g) (ops : List ApiOp) (r2 : Int) :
    (PiGpio.init r2 (runOps ops (PiGpio.init r s).2.1)).1 =
      Except.error error.Init.AlreadyInitialized := by
  rw [init_ok_state r s g h, runOps_of_ne_zero _ _ (by decide)]
  simp [PiGpio.init]

/-- Witness for C2: after a successful first call and a drop of the handle,
a second call fails with `AlreadyInitialized`. -/
theorem init_after_success_witness :
    (PiGpio.init 5 ⟨0⟩).1 = Except.ok ⟨⟩ ∧
    (PiGpio.init 5 (runOps [ApiOp.dropPiGpio] (PiGpio.init 5 ⟨0⟩).2.1)).1 =
      Except.error error.Init.AlreadyInitialized :=
  ⟨rfl, init_after_success 5 ⟨0⟩ ⟨⟩ rfl [ApiOp.dropPiGpio] 5⟩

/-- C10: dropping a controller handle has no effect: `PiGpio` has no `Drop`
implementation, so its disposal makes no native call and leaves the
process-wide initialization state unchanged. -/
theorem drop_pigpio_spec (s : ProcState) :
    (PiGpio.drop s).1 = s ∧ (PiGpio.drop s).2 = [] ∧
    procStep ApiOp.dropPiGpio s = s :=
  ⟨rfl, rfl, rfl⟩

/-- C3: over the lifecycle of one `wave_create` invocation, the native
delete entry point is called with the stored identifier exactly once when
creation succeeded (at the handle's disposal), and `gpioWaveDelete` is never
called at all when creation failed — no handle and no disposal exist then. -/
theorem wave_create_delete_once (ret : Int) :
    (∀ w, (PiGpio.wave_create ret).1 = Except.ok w →
      waveLifecycle ret =
        [NativeCall.gpioWaveCreate, NativeCall.gpioWaveDelete w.id] ∧
      (waveLifecycle ret).count (NativeCall.gpioWaveDelete w.id) = 1) ∧
    (∀ e, (PiGpio.wave_create ret).1 = Except.error e →
      waveLifecycle ret = [NativeCall.gpioWaveCreate] ∧
      ∀ i, (waveLifecycle ret).count (NativeCall.gpioWaveDelete i) = 0) := by
  constructor
  · intro w hw
    have htr : waveLifecycle ret =
        [NativeCall.gpioWaveCreate, NativeCall.gpioWaveDelete w.id] := by
      simp only [waveLifecycle, hw, Wave.drop]
      simp [PiGpio.wave_create]
    refine ⟨htr, ?_⟩
    rw [htr]
    simp [List.count_cons]
  · intro e he
    have htr : waveLifecycle ret = [NativeCall.gpioWaveCreate] := by
      simp only [waveLifecycle, he]
      simp [PiGpio.wave_create]
    refine ⟨htr, fun i => ?_⟩
    rw [htr]
    simp [List.count_cons]

/-- Witness for C3: a successful creation's lifecycle contains exactly one
delete of the stored identifier; a failed creation's lifecycle contains no
delete. -/
theorem wave_create_delete_once_witness :
    (waveLifecycle 7).count (NativeCall.gpioWaveDelete 7) = 1 ∧
    ∀ i, (waveLifecycle PI_EMPTY_WAVEFORM).count
        (NativeCall.gpioWaveDelete i) = 0 :=
  ⟨((wave_create_delete_once 7).1 ⟨7⟩ rfl).2,
   ((wave_create_delete_once PI_EMPTY_WAVEFORM).2
      error.WaveCreate.EmptyWaveform rfl).2⟩

/-- C4: within the native contract of the waveform-compile entry point
(return value is a new non-negative identifier fitting an `i32`, or one of
the four sentinels), `wave_create` maps `PI_EMPTY_WAVEFORM`,
`PI_TOO_MANY_CBS`, `PI_TOO_MANY_OOL` and `PI_NO_WAVEFORM_ID` to
`EmptyWaveform`, `TooManyCbs`, `TooManyOol` and `NoWaveformId` respectively,
and every other code it accepts is non-negative and becomes the new handle's
native identifier. -/
theorem wave_create_spec (ret : Int) (hhi : ret < 2 ^ 31)
    (hcontract : 0 ≤ ret ∨ ret = PI_EMPTY_WAVEFORM ∨ ret = PI_TOO_MANY_CBS ∨
      ret = PI_TOO_MANY_OOL ∨ ret = PI_NO_WAVEFORM_ID) :
    (ret = PI_EMPTY_WAVEFORM →
      (PiGpio.wave_create ret).1 = .error .EmptyWaveform) ∧
    (ret = PI_TOO_MANY_CBS →
      (PiGpio.wave_create ret).1 = .error .TooManyCbs) ∧
    (ret = PI_TOO_MANY_OOL →
      (PiGpio.wave_create ret).1 = .error .TooManyOol) ∧
    (ret = PI_NO_WAVEFORM_ID →
      (PiGpio.wave_create ret).1 = .error .NoWaveformId) ∧
    (ret ≠ PI_EMPTY_WAVEFORM → ret ≠ PI_TOO_MANY_CBS →
      ret ≠ PI_TOO_MANY_OOL → ret ≠ PI_NO_WAVEFORM_ID →
      0 ≤ ret ∧ (PiGpio.wave_create ret).1 = Except.ok ⟨ret.toNat⟩) := by
  refine ⟨fun h => ?_, fun h => ?_, fun h => ?_, fun h => ?_,
    fun h1 h2 h3 h4 => ?_⟩
  · subst h
    simp [PiGpio.wave_create, error.WaveCreate.from_return_code,
      PI_EMPTY_WAVEFORM, PI_TOO_MANY_CBS, PI_TOO_MANY_OOL, PI_NO_WAVEFORM_ID]
  · subst h
    simp [PiGpio.wave_create, error.WaveCreate.from_return_code,
      PI_EMPTY_WAVEFORM, PI_TOO_MANY_CBS, PI_TOO_MANY_OOL, PI_NO_WAVEFORM_ID]
  · subst h
    simp [PiGpio.wave_create, error.WaveCreate.from_return_code,
      PI_EMPTY_WAVEFORM, PI_TOO_MANY_CBS, PI_TOO_MANY_OOL, PI_NO_WAVEFORM_ID]
  · subst h
    simp [PiGpio.wave_create, error.WaveCreate.from_return_code,
      PI_EMPTY_WAVEFORM, PI_TOO_MANY_CBS, PI_TOO_MANY_OOL, PI_NO_WAVEFORM_ID]
  · have h0 : 0 ≤ ret := by
      rcases hcontract with h | h | h | h | h
      · exact h
      · exact absurd h h1
      · exact absurd h h2
      · exact absurd h h3
      · exact absurd h h4
    refine ⟨h0, ?_⟩
    simp [PiGpio.wave_create, error.WaveCreate.from_return_code,
      h1, h2, h3, h4, toU32]
    omega

/-- Witness for C4 at the concrete non-sentinel code 5. -/
theorem wave_create_spec_witness :
    0 ≤ (5 : Int) ∧ (PiGpio.wave_create 5).1 = Except.ok ⟨(5 : Int).toNat⟩ :=
  (wave_create_spec 5 (by norm_num) (Or.inl (by norm_num))).2.2.2.2
    (by decide) (by decide) (by decide) (by decide)

/-- C5: for a pulse sequence whose length fits `u32`, `wave_add_generic`
makes the native call and fails exactly when the native code is the
too-many-pulses sentinel (`TooManyPulses` being its only error); for a
longer sequence it fails with `TooManyPulses` without any native call. -/
theorem wave_add_generic_spec (pulses : List Pulse) (ret : Int) :
    (pulses.length ≤ U32_MAX →
      ((PiGpio.wave_add_generic pulses ret).1 = Except.error ⟨⟩ ↔
        ret = PI_TOO_MANY_PULSES) ∧
      ((PiGpio.wave_add_generic pulses ret).1 = Except.ok () ↔
        ret ≠ PI_TOO_MANY_PULSES) ∧
      (PiGpio.wave_add_generic pulses ret).2 =
        [NativeCall.gpioWaveAddGeneric pulses.length]) ∧
    (pulses.length > U32_MAX →
      PiGpio.wave_add_generic pulses ret = (Except.error ⟨⟩, [])) := by
  constructor
  · intro hlen
    have hnot : ¬ pulses.length > U32_MAX := not_lt.mpr hlen
    by_cases hr : ret = PI_TOO_MANY_PULSES <;>
      simp [PiGpio.wave_add_generic, hnot, hr]
  · intro hlen
    simp [PiGpio.wave_add_generic, hlen]

/-- Witness for C5 at concrete inputs: with the sentinel code the call
fails, with a non-sentinel code it succeeds. -/
theorem wave_add_generic_spec_witness :
    (PiGpio.wave_add_generic [] (-36)).1 = Except.error ⟨⟩ ∧
    (PiGpio.wave_add_generic [] 0).1 = Except.ok () :=
  ⟨((wave_add_generic_spec [] (-36)).1 (by decide)).1.mpr (by decide),
   ((wave_add_generic_spec [] 0).1 (by decide)).2.1.mpr (by decide)⟩

/-- Translation table of `error.BadSerial.from_return_code`: each native
sentinel goes to its error variant and every other code is success. -/
theorem BadSerial_table (ret : Int) :
    (ret = PI_BAD_USER_GPIO →
      error.BadSerial.from_return_code ret = .error .InvalidPin) ∧
    (ret = PI_BAD_WAVE_BAUD →
      error.BadSerial.from_return_code ret = .error .InvalidBaud) ∧
    (ret = PI_BAD_DATABITS →
      error.BadSerial.from_return_code ret = .error .InvalidDataBits) ∧
    (ret = PI_BAD_STOPBITS →
      error.BadSerial.from_return_code ret = .error .InvalidStopBits) ∧
    (ret = PI_TOO_MANY_CHARS →
      error.BadSerial.from_return_code ret = .error .TooManyBytes) ∧
    (ret = PI_BAD_SER_OFFSET →
      error.BadSerial.from_return_code ret = .error .InvalidOffset) ∧
    (ret = PI_TOO_MANY_PULSES →
      error.BadSerial.from_return_code ret = .error .TooManyPulses) ∧
    (ret ≠ PI_BAD_USER_GPIO → ret ≠ PI_BAD_WAVE_BAUD →
      ret ≠ PI_BAD_DATABITS → ret ≠ PI_BAD_STOPBITS →
      ret ≠ PI_TOO_MANY_CHARS → ret ≠ PI_BAD_SER_OFFSET →
      ret ≠ PI_TOO_MANY_PULSES →
      error.BadSerial.from_return_code ret = .ok ()) := by
  refine ⟨fun h => ?_, fun h => ?_, fun h => ?_, fun h => ?_, fun h => ?_,
    fun h => ?_, fun h => ?_, fun h1 h2 h3 h4 h5 h6 h7 => ?_⟩ <;>
    first
      | (subst h
         simp [error.BadSerial.from_return_code, PI_BAD_USER_GPIO,
           PI_BAD_WAVE_BAUD, PI_BAD_DATABITS, PI_BAD_STOPBITS,
           PI_TOO_MANY_CHARS, PI_BAD_SER_OFFSET, PI_TOO_MANY_PULSES])
      | simp [error.BadSerial.from_return_code, h1, h2, h3, h4, h5, h6, h7]

/-- C6: `wave_add_serial` fails locally with `TooManyBytes`, making no
native call, when the byte count exceeds the `u32` range; otherwise it makes
the native call and translates the return code: `PI_BAD_USER_GPIO` to
`InvalidPin`, `PI_BAD_WAVE_BAUD` to `InvalidBaud`, `PI_BAD_DATABITS` to
`InvalidDataBits`, `PI_BAD_STOPBITS` to `InvalidStopBits`,
`PI_TOO_MANY_CHARS` to `TooManyBytes`, `PI_BAD_SER_OFFSET` to
`InvalidOffset`, `PI_TOO_MANY_PULSES` to `TooManyPulses`, and any other code
to success. -/
theorem wave_add_serial_spec (pin baud data_bits stop_bits offset : Nat)
    (data : List Nat) (ret : Int) :
    (data.length > U32_MAX →
      PiGpio.wave_add_serial pin baud data_bits stop_bits offset data ret =
        (.error .TooManyBytes, [])) ∧
    (data.length ≤ U32_MAX →
      PiGpio.wave_add_serial pin baud data_bits stop_bits offset data ret =
        (error.BadSerial.from_return_code ret,
         [NativeCall.gpioWaveAddSerial pin baud data_bits stop_bits offset
            data.length]) ∧
      ((ret = PI_BAD_USER_GPIO →
          error.BadSerial.from_return_code ret = .error .InvalidPin) ∧
       (ret = PI_BAD_WAVE_BAUD →
          error.BadSerial.from_return_code ret = .error .InvalidBaud) ∧
       (ret = PI_BAD_DATABITS →
          error.BadSerial.from_return_code ret = .error .InvalidDataBits) ∧
       (ret = PI_BAD_STOPBITS →
          error.BadSerial.from_return_code ret = .error .InvalidStopBits) ∧
       (ret = PI_TOO_MANY_CHARS →
          error.BadSerial.from_return_code ret = .error .TooManyBytes) ∧
       (ret = PI_BAD_SER_OFFSET →
          error.BadSerial.from_return_code ret = .error .InvalidOffset) ∧
       (ret = PI_TOO_MANY_PULSES →
          error.BadSerial.from_return_code ret = .error .TooManyPulses) ∧
       (ret ≠ PI_BAD_USER_GPIO → ret ≠ PI_BAD_WAVE_BAUD →
          ret ≠ PI_BAD_DATABITS → ret ≠ PI_BAD_STOPBITS →
          ret ≠ PI_TOO_MANY_CHARS → ret ≠ PI_BAD_SER_OFFSET →
          ret ≠ PI_TOO_MANY_PULSES →
          error.BadSerial.from_return_code ret = .ok ()))) := by
  refine ⟨fun hlen => ?_, fun hlen => ⟨?_, BadSerial_table ret⟩⟩
  · simp [PiGpio.wave_add_serial, hlen]
  · simp [PiGpio.wave_add_serial, not_lt.mpr hlen]

/-- Witness for C6, following the spec's scenario: two data bytes, the
bad-databits sentinel, yields `InvalidDataBits` with the byte count 2
forwarded. -/
theorem wave_add_serial_spec_witness :
    PiGpio.wave_add_serial 4 9600 8 2 0 [65, 66] (-92) =
      (.error .InvalidDataBits,
       [NativeCall.gpioWaveAddSerial 4 9600 8 2 0 2]) := by
  have h := (wave_add_serial_spec 4 9600 8 2 0 [65, 66] (-92)).2 (by decide)
  rw [h.1, h.2.2.2.1 (by decide)]
  rfl

/-- C7: `tx_send` forwards the stored identifier together with the
synchronized native mode code (`OneShot` to the one-shot-synchronized code,
`Repeat` to the repeat-synchronized code, never a non-synchronized code),
and translates `PI_BAD_WAVE_ID` to `InvalidId`, `PI_BAD_WAVE_MODE` to
`InvalidMode`, any other code to success. -/
theorem tx_send_spec (w : Wave) (mode : WaveMode) (ret : Int) :
    (Wave.tx_send w mode ret).2 =
      [NativeCall.gpioWaveTxSend w.id mode.sync] ∧
    (mode = .OneShot → mode.sync = PI_WAVE_MODE_ONE_SHOT_SYNC) ∧
    (mode = .Repeat → mode.sync = PI_WAVE_MODE_REPEAT_SYNC) ∧
    mode.sync ≠ PI_WAVE_MODE_ONE_SHOT ∧
    mode.sync ≠ PI_WAVE_MODE_REPEAT ∧
    (ret = PI_BAD_WAVE_ID → (Wave.tx_send w mode ret).1 = .error .InvalidId) ∧
    (ret = PI_BAD_WAVE_MODE →
      (Wave.tx_send w mode ret).1 = .error .InvalidMode) ∧
    (ret ≠ PI_BAD_WAVE_ID → ret ≠ PI_BAD_WAVE_MODE →
      (Wave.tx_send w mode ret).1 = .ok ()) := by
  refine ⟨rfl, fun h => by subst h; rfl, fun h => by subst h; rfl, ?_, ?_,
    fun h => ?_, fun h => ?_, fun h1 h2 => ?_⟩
  · cases mode <;> decide
  · cases mode <;> decide
  · subst h
    simp [Wave.tx_send, error.WaveSend.from_return_code, PI_BAD_WAVE_ID,
      PI_BAD_WAVE_MODE]
  · subst h
    simp [Wave.tx_send, error.WaveSend.from_return_code, PI_BAD_WAVE_ID,
      PI_BAD_WAVE_MODE]
  · simp [Wave.tx_send, error.WaveSend.from_return_code, h1, h2]

/-- Witness for C7: a `Repeat` send of wave 3 forwards the
repeat-synchronized mode code and succeeds on a non-sentinel return code. -/
theorem tx_send_spec_witness :
    WaveMode.sync .Repeat = PI_WAVE_MODE_REPEAT_SYNC ∧
    (Wave.tx_send ⟨3⟩ .Repeat 0).2 =
      [NativeCall.gpioWaveTxSend 3 (WaveMode.sync .Repeat)] ∧
    (Wave.tx_send ⟨3⟩ .Repeat 0).1 = .ok () :=
  ⟨(tx_send_spec ⟨3⟩ .Repeat 0).2.2.1 rfl,
   (tx_send_spec ⟨3⟩ .Repeat 0).1,
   (tx_send_spec ⟨3⟩ .Repeat 0).2.2.2.2.2.2.2 (by decide) (by decide)⟩

/-- C8: `set_mode` forwards the pin and the mode's native code to the native
pin-mode call and translates `PI_BAD_GPIO` to `InvalidPin`, `PI_BAD_MODE` to
`InvalidMode`, every other return code to success. -/
theorem set_mode_spec (pin : Nat) (mode : PinMode) (ret : Int) :
    (PiGpio.set_mode pin mode ret).2 =
      [NativeCall.gpioSetMode pin mode.code] ∧
    (ret = PI_BAD_GPIO → (PiGpio.set_mode pin mode ret).1 = .error .InvalidPin) ∧
    (ret = PI_BAD_MODE → (PiGpio.set_mode pin mode ret).1 = .error .InvalidMode) ∧
    (ret ≠ PI_BAD_GPIO → ret ≠ PI_BAD_MODE →
      (PiGpio.set_mode pin mode ret).1 = .ok ()) := by
  refine ⟨rfl, fun h => ?_, fun h => ?_, fun h1 h2 => ?_⟩
  · subst h
    simp [PiGpio.set_mode, PI_BAD_GPIO, PI_BAD_MODE]
  · subst h
    simp [PiGpio.set_mode, PI_BAD_GPIO, PI_BAD_MODE]
  · simp [PiGpio.set_mode, h1, h2]

/-- Witness for C8: the bad-GPIO sentinel yields `InvalidPin`, a
non-sentinel code succeeds. -/
theorem set_mode_spec_witness :
    (PiGpio.set_mode 4 .Output (-3)).1 = .error .InvalidPin ∧
    (PiGpio.set_mode 4 .Output 0).1 = .ok () :=
  ⟨(set_mode_spec 4 .Output (-3)).2.1 (by decide),
   (set_mode_spec 4 .Output 0).2.2.2 (by decide) (by decide)⟩

/-- C9: `PinMode` has exactly 8 variants and their native integer codes are
Input=0, Output=1, Alt0=4, Alt1=5, Alt2=6, Alt3=7, Alt4=3, Alt5=2. -/
theorem pinmode_spec :
    Fintype.card PinMode = 8 ∧
    PinMode.code .Input = 0 ∧ PinMode.code .Output = 1 ∧
    PinMode.code .Alt0 = 4 ∧ PinMode.code .Alt1 = 5 ∧
    PinMode.code .Alt2 = 6 ∧ PinMode.code .Alt3 = 7 ∧
    PinMode.code .Alt4 = 3 ∧ PinMode.code .Alt5 = 2 :=
  ⟨rfl, rfl, rfl, rfl, rfl, rfl, rfl, rfl, rfl⟩

end Pigpio
